import Mathlib

/-!
Shallow embedding of the Boer War Personas backend
(app/main.py and tools/update_personas.py).

External collaborators (the hosted chat-completion service and the hosted
streaming text-to-speech service) are modelled as oracle functions returning
an exception monad; raising a Python exception corresponds to the error case.
The media directory is an association list from filename to audio bytes.
Outbound service calls and console log output are recorded as explicit event
and log lists so that claims about which collaborators are invoked, and what
is logged, can be stated.
-/

/-- Audio bytes streamed back by the text-to-speech service. -/
abbrev AudioBytes := List Nat

/-- The media directory: filenames mapped to the written audio bytes. -/
abbrev MediaFS := List (String × AudioBytes)

/-- A message object returned by the completion service
(mirrors chat.choices[i].message with role and content, content may be null). -/
structure SvcMessage where
  role : String
  content : Option String
deriving DecidableEq

/-- One completion choice (mirrors chat.choices[i]). -/
structure SvcChoice where
  message : SvcMessage
deriving DecidableEq

/-- The completion object returned by client.chat.completions.create. -/
structure ChatCompletion where
  choices : List SvcChoice
deriving DecidableEq

/-- One outbound call to a hosted collaborator service. -/
inductive CallEvent where
  /-- client.chat.completions.create with model and (role, content) messages. -/
  | completion (model : String) (messages : List (String × String))
  /-- client.audio.speech.with_streaming_response.create with model, voice, input text. -/
  | speech (model : String) (voice : String) (input : String)
deriving DecidableEq

/-- Whether an event is a call to the speech-synthesis service. -/
def CallEvent.isSpeech : CallEvent → Bool
  | CallEvent.speech _ _ _ => true
  | _ => false

/-- Oracles for the two hosted collaborators. An error value stands for the
Python call raising an exception; the string carries the exception message. -/
structure Services where
  completions_create : String → List (String × String) → Except String ChatCompletion
  speech_create : String → String → String → Except String AudioBytes

/-- PERSONA_NAMES from app/main.py: persona id to display name. -/
def PERSONA_NAMES : List (String × String) :=
  [("boer_commando_jan_du_preez", "Jan du Preez"),
   ("afrikaner_woman_camp_anna_van_der_merwe", "Anna van der Merwe"),
   ("black_man_with_boers_daniel_kgoathe", "Daniel Kgoathe"),
   ("british_soldier_arthur_jennings", "Private Arthur Jennings")]

/-- Python dict.get(key, default) on an association list. -/
def dictGet (d : List (String × String)) (k default_ : String) : String :=
  (d.lookup k).getD default_

/-- PERSONA_NAMES.get(persona_id, "Unknown persona"), the name lookup used by
generate_chat_reply. -/
def persona_name_of (persona_id : String) : String :=
  dictGet PERSONA_NAMES persona_id "Unknown persona"

/-- The system prompt built inside generate_chat_reply. -/
def system_prompt_for (persona_id : String) : String :=
  "You are " ++ persona_name_of persona_id ++
    ", a historical persona from the Anglo-Boer War (1899–1902). " ++
    "Answer in the first person. For Afrikaans personas, reply in natural early 1900s Afrikaans."

/-- The two-message exchange sent to the completion service. -/
def chat_messages_for (persona_id message : String) : List (String × String) :=
  [("system", system_prompt_for persona_id), ("user", message)]

/-- Python str.strip(): the string with leading and trailing whitespace
removed, computed structurally on the character list. -/
def pyStrip (s : String) : String :=
  String.mk (((s.data.dropWhile Char.isWhitespace).reverse.dropWhile Char.isWhitespace).reverse)

/-- generate_chat_reply from app/main.py. Returns the reply (or the
propagated exception) together with the outbound calls made. Indexing
chat.choices[0] on an empty list and calling .strip() on a null content
raise, hence map to the error case. -/
def generate_chat_reply (svc : Services) (persona_id message : String) :
    Except String String × List CallEvent :=
  let messages := chat_messages_for persona_id message
  let events := [CallEvent.completion "gpt-4o-mini" messages]
  match svc.completions_create "gpt-4o-mini" messages with
  | Except.error e => (Except.error e, events)
  | Except.ok chat =>
    match chat.choices.head? with
    | none => (Except.error "IndexError: list index out of range", events)
    | some choice =>
      match choice.message.content with
      | none => (Except.error "AttributeError: NoneType object has no attribute strip", events)
      | some s => (Except.ok (pyStrip s), events)

/-- voice_map from synthesize_tts in app/main.py. -/
def voice_map : List (String × String) :=
  [("boer_commando_jan_du_preez", "onyx"),
   ("afrikaner_woman_camp_anna_van_der_merwe", "coral"),
   ("black_man_with_boers_daniel_kgoathe", "alloy"),
   ("british_soldier_arthur_jennings", "verse")]

/-- voice_map.get(persona_id, "onyx"), the voice lookup used by synthesize_tts. -/
def voice_of (persona_id : String) : String :=
  dictGet voice_map persona_id "onyx"

/-- The console output of the except branch of synthesize_tts:
print("[TTS FAILED]", e) followed by traceback.print_exc(). -/
def tts_failure_logs (e : String) : List String :=
  ["[TTS FAILED] " ++ e, "Traceback (most recent call last)"]

/-- Result of one synthesize_tts call: the returned value (URL path or None),
the media directory afterwards, the outbound calls made and the log lines. -/
structure SynthResult where
  audio_url : Option String
  fs : MediaFS
  events : List CallEvent
  logs : List String
deriving DecidableEq

/-- synthesize_tts from app/main.py. The fresh uuid4().hex token for this
call is passed in as token; the file written is token ++ ".wav" under the
media directory. On any exception the error is caught, logged and None is
returned with the media directory unchanged. -/
def synthesize_tts (svc : Services) (token : String) (fs : MediaFS)
    (text persona_id : String) : SynthResult :=
  let voice := voice_of persona_id
  let filename := token ++ ".wav"
  let events := [CallEvent.speech "gpt-4o-mini-tts" voice text]
  match svc.speech_create "gpt-4o-mini-tts" voice text with
  | Except.ok audioBytes =>
      { audio_url := some ("/media/" ++ filename),
        fs := (filename, audioBytes) :: fs,
        events := events,
        logs := [] }
  | Except.error e =>
      { audio_url := none, fs := fs, events := events, logs := tts_failure_logs e }

/-- ChatInput from app/main.py (tts defaults to true). -/
structure ChatInput where
  persona_id : String
  message : String
  tts : Bool := true
deriving DecidableEq

/-- ChatOutput from app/main.py; avatar is an opaque optional object. -/
structure ChatOutput where
  reply : String
  audio_url : Option String := none
  avatar : Option Unit := none
deriving DecidableEq

/-- An error response from the endpoint: either an explicitly raised
HTTPException with its status code, or an unhandled exception, which the
framework surfaces as a 500 server error. -/
inductive HttpError where
  | httpException (status : Nat) (detail : String)
  | unhandled (msg : String)
deriving DecidableEq

/-- The HTTP status code of an endpoint outcome. -/
def responseStatus : Except HttpError ChatOutput → Nat
  | Except.ok _ => 200
  | Except.error (HttpError.httpException s _) => s
  | Except.error (HttpError.unhandled _) => 500

/-- Result of one POST /chat request: the response (or error), the media
directory afterwards, the outbound calls made and the log lines. -/
structure EndpointResult where
  response : Except HttpError ChatOutput
  fs : MediaFS
  events : List CallEvent
  logs : List String

/-- chat_endpoint from app/main.py. token is the uuid4().hex value the
synthesizer would draw for this request; fs is the media directory before
the request. -/
def chat_endpoint (svc : Services) (token : String) (fs : MediaFS)
    (inp : ChatInput) : EndpointResult :=
  if (PERSONA_NAMES.lookup inp.persona_id).isNone then
    { response := Except.error (HttpError.httpException 400 "Unknown persona_id"),
      fs := fs, events := [], logs := [] }
  else
    match generate_chat_reply svc inp.persona_id inp.message with
    | (Except.error e, events) =>
        { response := Except.error (HttpError.unhandled e),
          fs := fs, events := events, logs := [] }
    | (Except.ok reply, events) =>
        if inp.tts then
          let synth := synthesize_tts svc token fs reply inp.persona_id
          { response := Except.ok { reply := reply, audio_url := synth.audio_url, avatar := none },
            fs := synth.fs, events := events ++ synth.events, logs := synth.logs }
        else
          { response := Except.ok { reply := reply, audio_url := none, avatar := none },
            fs := fs, events := events, logs := [] }

/-- A persona record in the corpus JSON; fields other than persona_id are
opaque key-value pairs. -/
structure PersonaRecord where
  persona_id : String
  rest : List (String × String)
deriving DecidableEq

/-- The corpus JSON document of tools/update_personas.py: the personas array
plus the document's other top-level fields, kept opaque. -/
structure Corpus where
  personas : List PersonaRecord
  rest : List (String × String)
deriving DecidableEq

/-- keep_ids from tools/update_personas.py. -/
def keep_ids : List String :=
  ["british_soldier_arthur_jennings",
   "boer_commando_jan_du_preez",
   "afrikaner_woman_camp_anna_van_der_merwe",
   "black_man_with_boers_daniel_kgoathe"]

/-- The rewrite tools/update_personas.py performs on the loaded corpus:
corpus["personas"] is replaced by the filtered comprehension, everything
else is written back unchanged. -/
def update_personas (c : Corpus) : Corpus :=
  { c with personas := c.personas.filter (fun p => keep_ids.contains p.persona_id) }

/-- A concrete oracle pair where both collaborators succeed. -/
def svcBothOk : Services where
  completions_create := fun _ _ =>
    Except.ok { choices := [{ message := { role := "assistant", content := some " Good day to you. " } }] }
  speech_create := fun _ _ _ => Except.ok [1, 2, 3]

/-- A concrete oracle pair where reply generation succeeds and synthesis raises. -/
def svcSpeechFails : Services where
  completions_create := fun _ _ =>
    Except.ok { choices := [{ message := { role := "assistant", content := some "Ek is Jan." } }] }
  speech_create := fun _ _ _ => Except.error "connection reset"

/-- A concrete oracle pair where the completion call raises. -/
def svcCompletionFails : Services where
  completions_create := fun _ _ => Except.error "rate limit exceeded"
  speech_create := fun _ _ _ => Except.ok [9]

/-- A concrete oracle pair whose completion content is whitespace only. -/
def svcBlankReply : Services where
  completions_create := fun _ _ =>
    Except.ok { choices := [{ message := { role := "assistant", content := some "   " } }] }
  speech_create := fun _ _ _ => Except.error "quota exceeded"

/-- Case split on one generate_chat_reply call: either the call failed (the
service raised, the choices list was empty, or the content was null) and the
error propagates, or it succeeded and the result is the trimmed content of
the single completion. In both cases exactly one completion call is made. -/
theorem generate_chat_reply_split (svc : Services) (pid msg : String) :
    (∃ e, generate_chat_reply svc pid msg
        = (Except.error e, [CallEvent.completion "gpt-4o-mini" (chat_messages_for pid msg)])) ∨
    (∃ s, generate_chat_reply svc pid msg
          = (Except.ok (pyStrip s),
             [CallEvent.completion "gpt-4o-mini" (chat_messages_for pid msg)]) ∧
        ∃ chat choice,
          svc.completions_create "gpt-4o-mini" (chat_messages_for pid msg) = Except.ok chat ∧
          chat.choices.head? = some choice ∧ choice.message.content = some s) := by
  cases hc : svc.completions_create "gpt-4o-mini" (chat_messages_for pid msg) with
  | error e => exact Or.inl ⟨e, by simp [generate_chat_reply, hc]⟩
  | ok chat =>
    cases hh : chat.choices.head? with
    | none =>
      exact Or.inl ⟨"IndexError: list index out of range",
        by simp [generate_chat_reply, hc, hh]⟩
    | some choice =>
      cases hcon : choice.message.content with
      | none =>
        exact Or.inl ⟨"AttributeError: NoneType object has no attribute strip",
          by simp [generate_chat_reply, hc, hh, hcon]⟩
      | some s =>
        exact Or.inr ⟨s, by simp [generate_chat_reply, hc, hh, hcon],
          chat, choice, rfl, hh, hcon⟩

/-- One generate_chat_reply call always makes exactly the one completion
call, whatever the oracle returns. -/
theorem generate_chat_reply_eq (svc : Services) (pid msg : String) :
    generate_chat_reply svc pid msg
      = ((generate_chat_reply svc pid msg).1,
         [CallEvent.completion "gpt-4o-mini" (chat_messages_for pid msg)]) := by
  rcases generate_chat_reply_split svc pid msg with ⟨e, hg⟩ | ⟨s, hg, _⟩ <;> rw [hg]

/-- Case split on one synthesize_tts call: on oracle success the token's .wav
file is written and its URL returned; on oracle failure nothing is written,
None is returned and the failure is logged. -/
theorem synthesize_tts_split (svc : Services) (token : String) (fs : MediaFS)
    (text pid : String) :
    (∃ a, svc.speech_create "gpt-4o-mini-tts" (voice_of pid) text = Except.ok a ∧
        synthesize_tts svc token fs text pid
          = { audio_url := some ("/media/" ++ (token ++ ".wav")),
              fs := (token ++ ".wav", a) :: fs,
              events := [CallEvent.speech "gpt-4o-mini-tts" (voice_of pid) text],
              logs := [] }) ∨
    (∃ e, svc.speech_create "gpt-4o-mini-tts" (voice_of pid) text = Except.error e ∧
        synthesize_tts svc token fs text pid
          = { audio_url := none, fs := fs,
              events := [CallEvent.speech "gpt-4o-mini-tts" (voice_of pid) text],
              logs := tts_failure_logs e }) := by
  cases hs : svc.speech_create "gpt-4o-mini-tts" (voice_of pid) text with
  | error e => exact Or.inr ⟨e, rfl, by simp [synthesize_tts, hs]⟩
  | ok a => exact Or.inl ⟨a, rfl, by simp [synthesize_tts, hs]⟩

/-- Claim C1: for every chat request whose persona_id is not in the persona
registry, POST /chat responds with the 400 invalid-input error and makes zero
outbound service calls, leaving the media directory untouched. -/
theorem chat_endpoint_unknown_persona (svc : Services) (token : String) (fs : MediaFS)
    (inp : ChatInput) (h : PERSONA_NAMES.lookup inp.persona_id = none) :
    (chat_endpoint svc token fs inp).response
        = Except.error (HttpError.httpException 400 "Unknown persona_id") ∧
    responseStatus (chat_endpoint svc token fs inp).response = 400 ∧
    (chat_endpoint svc token fs inp).events = [] ∧
    (chat_endpoint svc token fs inp).fs = fs := by
  simp [chat_endpoint, h, responseStatus]

/-- Witness for C1 at a concrete unknown persona id. -/
theorem chat_endpoint_unknown_persona_witness :
    (chat_endpoint svcBothOk "tok1" [] { persona_id := "napoleon", message := "Hi" }).response
        = Except.error (HttpError.httpException 400 "Unknown persona_id") ∧
    responseStatus (chat_endpoint svcBothOk "tok1" []
        { persona_id := "napoleon", message := "Hi" }).response = 400 ∧
    (chat_endpoint svcBothOk "tok1" [] { persona_id := "napoleon", message := "Hi" }).events = [] ∧
    (chat_endpoint svcBothOk "tok1" [] { persona_id := "napoleon", message := "Hi" }).fs = [] :=
  chat_endpoint_unknown_persona svcBothOk "tok1" [] _ (by decide)

/-- Claim C6: each synthesize_tts call writes exactly one new file (the fresh
token's .wav entry prepended to the media directory) when the service call
succeeds, and writes nothing when it fails. -/
theorem synthesize_tts_fs_frame (svc : Services) (token : String) (fs : MediaFS)
    (text pid : String) :
    (∀ a, svc.speech_create "gpt-4o-mini-tts" (voice_of pid) text = Except.ok a →
        (synthesize_tts svc token fs text pid).fs = (token ++ ".wav", a) :: fs) ∧
    (∀ e, svc.speech_create "gpt-4o-mini-tts" (voice_of pid) text = Except.error e →
        (synthesize_tts svc token fs text pid).fs = fs) := by
  constructor <;> intro x hx <;> simp [synthesize_tts, hx]

/-- Witness for C6: one concrete successful call writes exactly the one new
file, one concrete failing call writes none. -/
theorem synthesize_tts_fs_frame_witness :
    (synthesize_tts svcBothOk "t6" [] "hi" "boer_commando_jan_du_preez").fs
        = [("t6" ++ ".wav", [1, 2, 3])] ∧
    (synthesize_tts svcSpeechFails "t6" [] "hi" "boer_commando_jan_du_preez").fs = [] :=
  ⟨(synthesize_tts_fs_frame svcBothOk "t6" [] "hi" "boer_commando_jan_du_preez").1 [1, 2, 3] rfl,
   (synthesize_tts_fs_frame svcSpeechFails "t6" [] "hi" "boer_commando_jan_du_preez").2
     "connection reset" rfl⟩

/-- Claim C7: for every request with a valid persona_id and tts set to false,
no speech-synthesis call is made, the media directory is unchanged, and any
successful response carries no audio_url. -/
theorem chat_endpoint_tts_false_frame (svc : Services) (token : String) (fs : MediaFS)
    (inp : ChatInput) (nm : String)
    (hval : PERSONA_NAMES.lookup inp.persona_id = some nm)
    (htts : inp.tts = false) :
    (chat_endpoint svc token fs inp).events.filter CallEvent.isSpeech = [] ∧
    (chat_endpoint svc token fs inp).fs = fs ∧
    ∀ out, (chat_endpoint svc token fs inp).response = Except.ok out → out.audio_url = none := by
  rcases generate_chat_reply_split svc inp.persona_id inp.message with ⟨e, hg⟩ | ⟨s, hg, _⟩ <;>
    simp [chat_endpoint, hval, hg, htts, CallEvent.isSpeech]

/-- Witness for C7 at a concrete valid persona and tts disabled. -/
theorem chat_endpoint_tts_false_frame_witness :
    ((chat_endpoint svcBothOk "t7" []
        { persona_id := "british_soldier_arthur_jennings", message := "Hi", tts := false
          }).events.filter CallEvent.isSpeech = []) ∧
    (chat_endpoint svcBothOk "t7" []
        { persona_id := "british_soldier_arthur_jennings", message := "Hi", tts := false }).fs = [] ∧
    ∀ out, (chat_endpoint svcBothOk "t7" []
        { persona_id := "british_soldier_arthur_jennings", message := "Hi", tts := false
          }).response = Except.ok out → out.audio_url = none :=
  chat_endpoint_tts_false_frame svcBothOk "t7" [] _ "Private Arthur Jennings" (by decide) rfl

/-- Claim C10: the maintenance script keeps exactly the persona records whose
id is in the four-id allow-list, in their original relative order, and leaves
every other field of the corpus document unchanged. -/
theorem update_personas_filters_allowlist (c : Corpus) :
    (update_personas c).personas
        = c.personas.filter (fun p => keep_ids.contains p.persona_id) ∧
    (∀ p : PersonaRecord, p ∈ (update_personas c).personas ↔
        p ∈ c.personas ∧ p.persona_id ∈ keep_ids) ∧
    (update_personas c).personas.Sublist c.personas ∧
    (update_personas c).rest = c.rest := by
  refine ⟨rfl, ?_, List.filter_sublist _, rfl⟩
  intro p
  simp [update_personas, List.mem_filter]

/-- Claim C8: the name lookup used by the reply generator and the voice lookup
used by the synthesizer fall back to "Unknown persona" and "onyx" for every id
not in the registry, and yield each registered persona's configured display
name and voice for the four registered ids. -/
theorem persona_registry_lookups :
    (∀ pid : String, PERSONA_NAMES.lookup pid = none →
        persona_name_of pid = "Unknown persona" ∧ voice_of pid = "onyx") ∧
    persona_name_of "boer_commando_jan_du_preez" = "Jan du Preez" ∧
    persona_name_of "afrikaner_woman_camp_anna_van_der_merwe" = "Anna van der Merwe" ∧
    persona_name_of "black_man_with_boers_daniel_kgoathe" = "Daniel Kgoathe" ∧
    persona_name_of "british_soldier_arthur_jennings" = "Private Arthur Jennings" ∧
    voice_of "boer_commando_jan_du_preez" = "onyx" ∧
    voice_of "afrikaner_woman_camp_anna_van_der_merwe" = "coral" ∧
    voice_of "black_man_with_boers_daniel_kgoathe" = "alloy" ∧
    voice_of "british_soldier_arthur_jennings" = "verse" := by
  refine ⟨?_, by decide, by decide, by decide, by decide, by decide, by decide, by decide,
    by decide⟩
  intro pid h
  have h' := h
  simp [PERSONA_NAMES] at h'
  have hv : voice_map.lookup pid = none := by
    simp [voice_map]
    exact h'
  exact ⟨by simp [persona_name_of, dictGet, h], by simp [voice_of, dictGet, hv]⟩

/-- Witness for C8 at a concrete unregistered persona id. -/
theorem persona_registry_lookups_witness :
    persona_name_of "piet_retief" = "Unknown persona" ∧ voice_of "piet_retief" = "onyx" :=
  persona_registry_lookups.1 "piet_retief" (by decide)

/-- Claim C2: when the speech-synthesis call fails, synthesize_tts catches the
error, logs the message plus a stack trace and returns None, and the chat
request still succeeds with the generated reply, an absent audio_url and an
unchanged media directory. -/
theorem chat_endpoint_synth_failure_soft (svc : Services) (token : String) (fs : MediaFS)
    (inp : ChatInput) (nm reply e : String)
    (hval : PERSONA_NAMES.lookup inp.persona_id = some nm)
    (htts : inp.tts = true)
    (hgen : (generate_chat_reply svc inp.persona_id inp.message).1 = Except.ok reply)
    (hfail : svc.speech_create "gpt-4o-mini-tts" (voice_of inp.persona_id) reply
        = Except.error e) :
    (synthesize_tts svc token fs reply inp.persona_id).audio_url = none ∧
    (synthesize_tts svc token fs reply inp.persona_id).logs = tts_failure_logs e ∧
    (chat_endpoint svc token fs inp).response
        = Except.ok { reply := reply, audio_url := none, avatar := none } ∧
    (chat_endpoint svc token fs inp).fs = fs := by
  have hg := generate_chat_reply_eq svc inp.persona_id inp.message
  rw [hgen] at hg
  refine ⟨by simp [synthesize_tts, hfail], by simp [synthesize_tts, hfail], ?_, ?_⟩ <;>
    simp [chat_endpoint, hval, hg, htts, synthesize_tts, hfail]

/-- Witness for C2: a concrete failing synthesis collaborator still yields a
successful reply with no audio and no file written. -/
theorem chat_endpoint_synth_failure_soft_witness :
    (synthesize_tts svcSpeechFails "t2" [] "Ek is Jan." "boer_commando_jan_du_preez").audio_url
        = none ∧
    (synthesize_tts svcSpeechFails "t2" [] "Ek is Jan." "boer_commando_jan_du_preez").logs
        = tts_failure_logs "connection reset" ∧
    (chat_endpoint svcSpeechFails "t2" []
        { persona_id := "boer_commando_jan_du_preez", message := "Hallo", tts := true }).response
        = Except.ok { reply := "Ek is Jan.", audio_url := none, avatar := none } ∧
    (chat_endpoint svcSpeechFails "t2" []
        { persona_id := "boer_commando_jan_du_preez", message := "Hallo", tts := true }).fs
        = [] :=
  chat_endpoint_synth_failure_soft svcSpeechFails "t2" []
    { persona_id := "boer_commando_jan_du_preez", message := "Hallo", tts := true }
    "Jan du Preez" "Ek is Jan." "connection reset" (by decide) rfl rfl rfl

/-- Claim C3: when the reply-generation call fails, the error propagates and
POST /chat is a 500 server error, the speech synthesizer is never invoked and
the media directory is unchanged. -/
theorem chat_endpoint_reply_failure_hard (svc : Services) (token : String) (fs : MediaFS)
    (inp : ChatInput) (nm e : String)
    (hval : PERSONA_NAMES.lookup inp.persona_id = some nm)
    (hgen : (generate_chat_reply svc inp.persona_id inp.message).1 = Except.error e) :
    (chat_endpoint svc token fs inp).response = Except.error (HttpError.unhandled e) ∧
    responseStatus (chat_endpoint svc token fs inp).response = 500 ∧
    (chat_endpoint svc token fs inp).events.filter CallEvent.isSpeech = [] ∧
    (chat_endpoint svc token fs inp).fs = fs := by
  have hg := generate_chat_reply_eq svc inp.persona_id inp.message
  rw [hgen] at hg
  simp [chat_endpoint, hval, hg, responseStatus, CallEvent.isSpeech]

/-- Witness for C3: a concrete failing completion collaborator yields a 500
with no synthesis call. -/
theorem chat_endpoint_reply_failure_hard_witness :
    (chat_endpoint svcCompletionFails "t3" []
        { persona_id := "british_soldier_arthur_jennings", message := "Hi", tts := true
          }).response = Except.error (HttpError.unhandled "rate limit exceeded") ∧
    responseStatus (chat_endpoint svcCompletionFails "t3" []
        { persona_id := "british_soldier_arthur_jennings", message := "Hi", tts := true
          }).response = 500 ∧
    (chat_endpoint svcCompletionFails "t3" []
        { persona_id := "british_soldier_arthur_jennings", message := "Hi", tts := true
          }).events.filter CallEvent.isSpeech = [] ∧
    (chat_endpoint svcCompletionFails "t3" []
        { persona_id := "british_soldier_arthur_jennings", message := "Hi", tts := true
          }).fs = [] :=
  chat_endpoint_reply_failure_hard svcCompletionFails "t3" []
    { persona_id := "british_soldier_arthur_jennings", message := "Hi", tts := true }
    "Private Arthur Jennings" "rate limit exceeded" (by decide) rfl

/-- Any successful response carrying an audio_url got it from the tts branch:
the URL is /media/<token>.wav and the token's file was prepended to the media
directory. -/
theorem chat_endpoint_audio_url_eq (svc : Services) (token : String) (fs : MediaFS)
    (inp : ChatInput) (out : ChatOutput) (u : String)
    (hok : (chat_endpoint svc token fs inp).response = Except.ok out)
    (hurl : out.audio_url = some u) :
    u = "/media/" ++ (token ++ ".wav") ∧
    ∃ a, (chat_endpoint svc token fs inp).fs = (token ++ ".wav", a) :: fs := by
  by_cases hv : (PERSONA_NAMES.lookup inp.persona_id).isNone
  · simp [chat_endpoint, hv] at hok
  · rcases generate_chat_reply_split svc inp.persona_id inp.message with ⟨e, hg⟩ | ⟨s, hg, -⟩
    · simp [chat_endpoint, hv, hg] at hok
    · by_cases ht : inp.tts
      · rcases synthesize_tts_split svc token fs (pyStrip s) inp.persona_id with
          ⟨a, hs, hsy⟩ | ⟨e, hs, hsy⟩
        · simp [chat_endpoint, hv, hg, ht, hsy] at hok
          rw [← hok] at hurl
          simp at hurl
          exact ⟨hurl.symm, a, by simp [chat_endpoint, hv, hg, ht, hsy]⟩
        · simp [chat_endpoint, hv, hg, ht, hsy] at hok
          rw [← hok] at hurl
          simp at hurl
      · simp [chat_endpoint, hv, hg, ht] at hok
        rw [← hok] at hurl
        simp at hurl

/-- Claim C4: whenever a response carries an audio_url, it has the form
/media/<token>.wav for the freshly generated token with the .wav extension,
and a file with that name exists in the media directory at response time. -/
theorem chat_endpoint_audio_url_invariant (svc : Services) (token : String) (fs : MediaFS)
    (inp : ChatInput) (out : ChatOutput) (u : String)
    (hok : (chat_endpoint svc token fs inp).response = Except.ok out)
    (hurl : out.audio_url = some u) :
    u = "/media/" ++ (token ++ ".wav") ∧
    (((chat_endpoint svc token fs inp).fs.lookup (token ++ ".wav")).isSome = true) := by
  obtain ⟨hu, a, hfs⟩ := chat_endpoint_audio_url_eq svc token fs inp out u hok hurl
  rw [hu, hfs]
  simp

/-- Witness for C4 at a concrete successful synthesis. -/
theorem chat_endpoint_audio_url_invariant_witness :
    ("/media/t4.wav" : String) = "/media/" ++ ("t4" ++ ".wav") ∧
    (((chat_endpoint svcBothOk "t4" []
        { persona_id := "boer_commando_jan_du_preez", message := "Hi", tts := true
          }).fs.lookup ("t4" ++ ".wav")).isSome = true) :=
  chat_endpoint_audio_url_invariant svcBothOk "t4" []
    { persona_id := "boer_commando_jan_du_preez", message := "Hi", tts := true }
    { reply := "Good day to you.", audio_url := some "/media/t4.wav", avatar := none }
    "/media/t4.wav" rfl rfl

/-- Claim C5 counterexample: when the completion content is whitespace only,
POST /chat succeeds with an empty reply, so a successful ChatResponse can
carry an empty reply. -/
theorem chat_endpoint_empty_reply_possible :
    (chat_endpoint svcBlankReply "t5" []
        { persona_id := "boer_commando_jan_du_preez", message := "Hallo", tts := false
          }).response
      = Except.ok { reply := "", audio_url := none, avatar := none } := rfl

/-- Claim C5 amended: every successful response's reply is the single
completion's text content with surrounding whitespace trimmed; it is
therefore non-empty only when that content has a non-whitespace character,
and an all-whitespace completion yields a successful response whose reply is
empty. -/
theorem chat_endpoint_reply_is_trimmed_completion (svc : Services) (token : String)
    (fs : MediaFS) (inp : ChatInput) (out : ChatOutput)
    (hok : (chat_endpoint svc token fs inp).response = Except.ok out) :
    ∃ chat choice s,
      svc.completions_create "gpt-4o-mini" (chat_messages_for inp.persona_id inp.message)
          = Except.ok chat ∧
      chat.choices.head? = some choice ∧
      choice.message.content = some s ∧
      out.reply = pyStrip s := by
  by_cases hv : (PERSONA_NAMES.lookup inp.persona_id).isNone
  · simp [chat_endpoint, hv] at hok
  · rcases generate_chat_reply_split svc inp.persona_id inp.message with
      ⟨e, hg⟩ | ⟨s, hg, chat, choice, hc, hh, hcon⟩
    · simp [chat_endpoint, hv, hg] at hok
    · refine ⟨chat, choice, s, hc, hh, hcon, ?_⟩
      by_cases ht : inp.tts
      · rcases synthesize_tts_split svc token fs (pyStrip s) inp.persona_id with
          ⟨a, hs, hsy⟩ | ⟨e, hs, hsy⟩ <;>
          · simp [chat_endpoint, hv, hg, ht, hsy] at hok
            simp [← hok]
      · simp [chat_endpoint, hv, hg, ht] at hok
        simp [← hok]

/-- Witness for C5 amended at a concrete successful call. -/
theorem chat_endpoint_reply_is_trimmed_completion_witness :
    ∃ chat choice s,
      svcBothOk.completions_create "gpt-4o-mini"
          (chat_messages_for "boer_commando_jan_du_preez" "Hi") = Except.ok chat ∧
      chat.choices.head? = some choice ∧
      choice.message.content = some s ∧
      ({ reply := "Good day to you.", audio_url := none, avatar := none
         } : ChatOutput).reply = pyStrip s :=
  chat_endpoint_reply_is_trimmed_completion svcBothOk "t5b" []
    { persona_id := "boer_commando_jan_du_preez", message := "Hi", tts := false }
    { reply := "Good day to you.", audio_url := none, avatar := none } rfl

/-- Claim C9: two successful chat calls with the same input and tts enabled
return distinct audio_url values whenever their fresh filename tokens differ
(the URL is determined by the per-call token alone, so no caching or
deduplication by input occurs; distinct uuid4 tokens are the collision
resistance the code relies on). -/
theorem chat_endpoint_distinct_audio_urls (svc1 svc2 : Services) (t1 t2 : String)
    (fs1 fs2 : MediaFS) (inp : ChatInput) (out1 out2 : ChatOutput) (u1 u2 : String)
    (hne : t1 ≠ t2)
    (h1 : (chat_endpoint svc1 t1 fs1 inp).response = Except.ok out1)
    (hu1 : out1.audio_url = some u1)
    (h2 : (chat_endpoint svc2 t2 fs2 inp).response = Except.ok out2)
    (hu2 : out2.audio_url = some u2) :
    u1 ≠ u2 := by
  obtain ⟨e1, -⟩ := chat_endpoint_audio_url_eq svc1 t1 fs1 inp out1 u1 h1 hu1
  obtain ⟨e2, -⟩ := chat_endpoint_audio_url_eq svc2 t2 fs2 inp out2 u2 h2 hu2
  rw [e1, e2]
  intro hcontra
  apply hne
  have hd := congrArg String.data hcontra
  simp only [String.data_append] at hd
  exact String.ext (List.append_cancel_right (List.append_cancel_left hd))

/-- Witness for C9: two concrete calls with identical input but different
fresh tokens yield different URLs. -/
theorem chat_endpoint_distinct_audio_urls_witness :
    ("/media/" ++ ("a" ++ ".wav") : String) ≠ ("/media/" ++ ("b" ++ ".wav")) :=
  chat_endpoint_distinct_audio_urls svcBothOk svcBothOk "a" "b" [] []
    { persona_id := "boer_commando_jan_du_preez", message := "Hello", tts := true }
    { reply := "Good day to you.", audio_url := some ("/media/" ++ ("a" ++ ".wav")),
      avatar := none }
    { reply := "Good day to you.", audio_url := some ("/media/" ++ ("b" ++ ".wav")),
      avatar := none }
    ("/media/" ++ ("a" ++ ".wav")) ("/media/" ++ ("b" ++ ".wav"))
    (by decide) rfl rfl rfl rfl
